import Mathlib

/-!
Verification of the trading-app core pipeline against its source.

Shallow embedding of:
  * `charts.py` : `extract_trading_levels` (JSON phase + regex fallback),
    `format_ai_output`, the chart fallback summary of `generate_charts`,
    and the bar-ordering part of `extract_df`;
  * `data_fetcher.py` : `add_technical_indicators` (pandas-ta EMA / RSI /
    stdev / SMA / diff / pct_change semantics over exact rationals),
    `get_symbol_data` (status guard, chronological sort, warm-up trim);
  * `bybit.py` : the fetch loop of `get_bybit_coin_data` and its error path.

Machine floats are modelled as exact rationals; all inputs exercised by the
theorems are dyadic so no rounding distinction arises.  Python exceptions are
modelled with `Except` / explicit result inductives at the places where the
source can raise.
-/

/-- Python exception kinds raised by the modelled code paths. -/
inductive PyErr where
  | jsonDecodeError (msg : String)
  | valueError
  | typeError
  | indexError
  | exception (msg : String)
deriving DecidableEq

/-- JSON values as produced by Python `json.loads`. -/
inductive JVal where
  | null
  | bool (b : Bool)
  | num (q : ℚ)
  | str (s : String)
  | arr (elems : List JVal)
  | obj (members : List (String × JVal))

/-- JSON whitespace accepted between tokens by `json.loads`. -/
def jsonWs (c : Char) : Bool :=
  c = ' ' || c = '\t' || c = '\n' || c = '\r'

/-- Drop leading JSON whitespace. -/
def skipJsonWs : List Char → List Char
  | [] => []
  | c :: cs => if jsonWs c then skipJsonWs cs else c :: cs

/-- Numeric value of a decimal digit character. -/
def digitVal (c : Char) : ℕ := c.toNat - '0'.toNat

/-- Fold a digit run into a natural number. -/
def digitsToNat (ds : List Char) : ℕ :=
  ds.foldl (fun a c => 10 * a + digitVal c) 0

/-- Rational value of a decimal digit character (kept cast-free so that
concrete inputs evaluate by definitional reduction). -/
def digitValQ (c : Char) : ℚ :=
  if c = '0' then 0 else if c = '1' then 1 else if c = '2' then 2
  else if c = '3' then 3 else if c = '4' then 4 else if c = '5' then 5
  else if c = '6' then 6 else if c = '7' then 7 else if c = '8' then 8
  else 9

/-- Fold a digit run into a rational. -/
def digitsToQ (ds : List Char) : ℚ :=
  ds.foldl (fun a c => 10 * a + digitValQ c) 0

/-- `10 ^ n` in `ℚ`, cast-free. -/
def qPow10 : ℕ → ℚ
  | 0 => 1
  | n + 1 => 10 * qPow10 n

/-- Split a leading run of decimal digits from the rest. -/
def takeDigits : List Char → List Char × List Char
  | [] => ([], [])
  | c :: cs =>
    if c.isDigit then
      let p := takeDigits cs
      (c :: p.1, p.2)
    else ([], c :: cs)

/-- Hex digit value, `none` for a non-hex character. -/
def hexDigitVal (c : Char) : Option ℕ :=
  if c.isDigit then some (digitVal c)
  else if 'a' ≤ c ∧ c ≤ 'f' then some (c.toNat - 'a'.toNat + 10)
  else if 'A' ≤ c ∧ c ≤ 'F' then some (c.toNat - 'A'.toNat + 10)
  else none

/-- JSON number grammar of `json.loads`: optional minus, integer part without
leading zeros, optional fraction, optional exponent.  Returns the exact
rational value (Python parses to int/float; the inputs of interest are exact). -/
def parseJNumber (cs : List Char) : Except PyErr (ℚ × List Char) :=
  let sgn := match cs with
    | '-' :: t => (true, t)
    | _ => (false, cs)
  let ipr := takeDigits sgn.2
  if ipr.1 = [] then .error (.jsonDecodeError "expecting value")
  else if ipr.1.length > 1 ∧ ipr.1.headD '0' = '0' then .error (.jsonDecodeError "leading zero")
  else
    let ival : ℚ := digitsToQ ipr.1
    let afterFrac : Except PyErr (ℚ × List Char) :=
      match ipr.2 with
      | '.' :: t =>
        let fr := takeDigits t
        if fr.1 = [] then .error (.jsonDecodeError "expecting digit after point")
        else .ok (ival + digitsToQ fr.1 / qPow10 fr.1.length, fr.2)
      | _ => .ok (ival, ipr.2)
    match afterFrac with
    | .error e => .error e
    | .ok (v, rest) =>
      match rest with
      | 'e' :: t =>
        parseJNumberExp v t sgn.1
      | 'E' :: t =>
        parseJNumberExp v t sgn.1
      | _ => .ok (if sgn.1 then -v else v, rest)
where
  /-- Exponent suffix: optional sign then one or more digits. -/
  parseJNumberExp (v : ℚ) (t : List Char) (neg : Bool) : Except PyErr (ℚ × List Char) :=
    let es := match t with
      | '+' :: u => (false, u)
      | '-' :: u => (true, u)
      | _ => (false, t)
    let ed := takeDigits es.2
    if ed.1 = [] then .error (.jsonDecodeError "expecting exponent digits")
    else
      let e := digitsToNat ed.1
      let scaled := if es.1 then v / qPow10 e else v * qPow10 e
      .ok (if neg then -scaled else scaled, ed.2)

/-- Body of a JSON string after the opening quote: characters and escapes up
to the closing quote.  Raw control characters are rejected (strict mode of
`json.loads`). -/
def parseJStringAux : ℕ → List Char → List Char → Except PyErr (String × List Char)
  | 0, _, _ => .error (.jsonDecodeError "fuel")
  | fuel + 1, acc, cs =>
    match cs with
    | [] => .error (.jsonDecodeError "unterminated string")
    | c :: cs1 =>
      if c = '"' then .ok (String.mk acc.reverse, cs1)
      else if c = '\\' then
        match cs1 with
        | [] => .error (.jsonDecodeError "unterminated escape")
        | e :: cs2 =>
          if e = '"' then parseJStringAux fuel ( '"' :: acc) cs2
          else if e = '\\' then parseJStringAux fuel ( '\\' :: acc) cs2
          else if e = '/' then parseJStringAux fuel ( '/' :: acc) cs2
          else if e = 'b' then parseJStringAux fuel ( '\x08' :: acc) cs2
          else if e = 'f' then parseJStringAux fuel ( '\x0c' :: acc) cs2
          else if e = 'n' then parseJStringAux fuel ( '\n' :: acc) cs2
          else if e = 'r' then parseJStringAux fuel ( '\r' :: acc) cs2
          else if e = 't' then parseJStringAux fuel ( '\t' :: acc) cs2
          else if e = 'u' then
            match cs2 with
            | h1 :: h2 :: h3 :: h4 :: cs3 =>
              match hexDigitVal h1, hexDigitVal h2, hexDigitVal h3, hexDigitVal h4 with
              | some a, some b, some cc, some d =>
                parseJStringAux fuel (Char.ofNat (((a * 16 + b) * 16 + cc) * 16 + d) :: acc) cs3
              | _, _, _, _ => .error (.jsonDecodeError "invalid unicode escape")
            | _ => .error (.jsonDecodeError "invalid unicode escape")
          else .error (.jsonDecodeError "invalid escape")
      else if c.toNat < 32 then .error (.jsonDecodeError "control character")
      else parseJStringAux fuel (c :: acc) cs1

/-- Members of a JSON object, positioned after `\x7b` or a comma; consumes the
closing brace.  Parameterised over the value parser `pv` so that the whole
parser is plain structural recursion. -/
def parseJMembersF (pv : List Char → Except PyErr (JVal × List Char)) :
    ℕ → List Char → Except PyErr (List (String × JVal) × List Char)
  | 0, _ => .error (.jsonDecodeError "fuel")
  | fuel + 1, cs =>
    match skipJsonWs cs with
    | '"' :: cs1 =>
      match parseJStringAux (cs1.length + 1) [] cs1 with
      | .error e => .error e
      | .ok (k, cs2) =>
        match skipJsonWs cs2 with
        | ':' :: cs3 =>
          match pv cs3 with
          | .error e => .error e
          | .ok (v, cs4) =>
            match skipJsonWs cs4 with
            | ',' :: cs5 =>
              match parseJMembersF pv fuel cs5 with
              | .ok (m, r) => .ok ((k, v) :: m, r)
              | .error e => .error e
            | '\x7d' :: cs5 => .ok ([(k, v)], cs5)
            | _ => .error (.jsonDecodeError "expecting comma delimiter")
        | _ => .error (.jsonDecodeError "expecting colon delimiter")
    | _ => .error (.jsonDecodeError "expecting property name")

/-- Elements of a JSON array, positioned after `[` or a comma; consumes the
closing bracket. -/
def parseJElemsF (pv : List Char → Except PyErr (JVal × List Char)) :
    ℕ → List Char → Except PyErr (List JVal × List Char)
  | 0, _ => .error (.jsonDecodeError "fuel")
  | fuel + 1, cs =>
    match pv cs with
    | .error e => .error e
    | .ok (v, cs1) =>
      match skipJsonWs cs1 with
      | ',' :: cs2 =>
        match parseJElemsF pv fuel cs2 with
        | .ok (xs, r) => .ok (v :: xs, r)
        | .error e => .error e
      | ']' :: cs2 => .ok ([v], cs2)
      | _ => .error (.jsonDecodeError "expecting comma delimiter")

/-- One JSON value starting at `cs` (leading whitespace allowed).  (Python
also accepts `NaN`/`Infinity` token values; those are modelled as parse
failures, which is immaterial to the claims since both sides of the relevant
catch behave identically.) -/
def parseJValue : ℕ → List Char → Except PyErr (JVal × List Char)
  | 0, _ => .error (.jsonDecodeError "fuel")
  | fuel + 1, cs =>
    match skipJsonWs cs with
    | [] => .error (.jsonDecodeError "expecting value")
    | c :: cs1 =>
      if c = '\x7b' then
        match skipJsonWs cs1 with
        | '\x7d' :: cs2 => .ok (.obj [], cs2)
        | _ =>
          match parseJMembersF (parseJValue fuel) (cs1.length + 1) cs1 with
          | .ok (m, r) => .ok (.obj m, r)
          | .error e => .error e
      else if c = '[' then
        match skipJsonWs cs1 with
        | ']' :: cs2 => .ok (.arr [], cs2)
        | _ =>
          match parseJElemsF (parseJValue fuel) (cs1.length + 1) cs1 with
          | .ok (xs, r) => .ok (.arr xs, r)
          | .error e => .error e
      else if c = '"' then
        match parseJStringAux (cs1.length + 1) [] cs1 with
        | .ok (s, r) => .ok (.str s, r)
        | .error e => .error e
      else if c = 't' then
        match cs1 with
        | 'r' :: 'u' :: 'e' :: r => .ok (.bool true, r)
        | _ => .error (.jsonDecodeError "expecting value")
      else if c = 'f' then
        match cs1 with
        | 'a' :: 'l' :: 's' :: 'e' :: r => .ok (.bool false, r)
        | _ => .error (.jsonDecodeError "expecting value")
      else if c = 'n' then
        match cs1 with
        | 'u' :: 'l' :: 'l' :: r => .ok (.null, r)
        | _ => .error (.jsonDecodeError "expecting value")
      else if c = '-' ∨ c.isDigit then
        match parseJNumber (c :: cs1) with
        | .ok (q, r) => .ok (.num q, r)
        | .error e => .error e
      else .error (.jsonDecodeError "expecting value")

/-- Python `json.loads`: parse one value, then only whitespace may remain. -/
def json_loads (s : String) : Except PyErr JVal :=
  let cs := s.toList
  match parseJValue (cs.length + 16) cs with
  | .error e => .error e
  | .ok (v, rest) =>
    match skipJsonWs rest with
    | [] => .ok v
    | _ => .error (.jsonDecodeError "extra data")

/-- `re.search` of the pattern `\x7b.*\x7d` with `re.DOTALL`: leftmost start,
greedy extent, i.e. the substring from the first opening brace to the last
closing brace, provided the latter lies strictly after the former
(`charts.py` line 73). -/
def findJsonMatch (t : String) : Option String :=
  let cs := t.toList
  match cs.findIdx? (fun c => c = '\x7b') with
  | none => none
  | some i =>
    match cs.reverse.findIdx? (fun c => c = '\x7d') with
    | none => none
    | some k =>
      let j := cs.length - 1 - k
      if i < j then some (String.mk ((cs.drop i).take (j - i + 1))) else none

/-- Lookup in a parsed JSON object.  `json.loads` builds a Python dict in
which a duplicated key keeps its last occurrence, so the last binding wins. -/
def lookupLast (kvs : List (String × JVal)) (k : String) : Option JVal :=
  (kvs.reverse.find? (fun kv => kv.1 = k)).map (fun kv => kv.2)

/-- Python `data.get(k)`: `None` both when the key is absent and when it is
bound to JSON `null`. -/
def pyGetOpt (kvs : List (String × JVal)) (k : String) : Option JVal :=
  match lookupLast kvs k with
  | some .null => none
  | some v => some v
  | none => none

/-- Python `data.get(k, '')`: the stored value when the key is present (which
may be `null`, i.e. Python `None`), else the empty string. -/
def pyGetStrDefault (kvs : List (String × JVal)) (k : String) : JVal :=
  match lookupLast kvs k with
  | some v => v
  | none => .str ""

/-- Python `s.upper()` on a string (ASCII case mapping, which covers the
inputs of interest). -/
def pyUpperStr (s : String) : String :=
  String.mk (s.toList.map Char.toUpper)

/-- Python `v.upper()`: succeeds only on a string; anything else (including
`None` from a `null` binding) raises `AttributeError`. -/
def pyUpper : JVal → Option String
  | .str s => some (pyUpperStr s)
  | _ => none

/-- The structured result of `extract_trading_levels`: the tuple
`(entry, tp1, tp2, tp3, sl, signal, probability)`.  The JSON phase stores the
raw JSON values; the regex phase stores parsed floats (as `JVal.num`). -/
structure Extracted where
  entry : Option JVal
  tp1 : Option JVal
  tp2 : Option JVal
  tp3 : Option JVal
  sl : Option JVal
  signal : Option String
  probability : Option JVal

/-- Outcome of the JSON phase of `extract_trading_levels`
(`charts.py` lines 69-101): either an early `return` with the extracted
tuple, or one of the situations that lead to the regex fallback — no brace
candidate found, `json.JSONDecodeError`, or `AttributeError` (both caught). -/
inductive Phase1Result where
  | success (r : Extracted)
  | noJson
  | raisedJSONDecodeError (msg : String)
  | raisedAttributeError

/-- JSON phase of `extract_trading_levels`. -/
def phase1 (t : String) : Phase1Result :=
  match findJsonMatch t with
  | none => .noJson
  | some js =>
    match json_loads js with
    | .error (.jsonDecodeError m) => .raisedJSONDecodeError m
    | .error _ => .raisedJSONDecodeError "unreachable"
    | .ok (.obj d) =>
      match pyUpper (pyGetStrDefault d "signal") with
      | none => .raisedAttributeError
      | some sig =>
        .success
          { entry := pyGetOpt d "entry"
            tp1 := pyGetOpt d "tp1"
            tp2 := pyGetOpt d "tp2"
            tp3 := pyGetOpt d "tp3"
            sl := pyGetOpt d "stop_loss"
            signal := some sig
            probability := pyGetOpt d "probability" }
    | .ok _ => .raisedAttributeError

/-- Parts of the concrete regex patterns of `charts.py` lines 114-153.  Every
pattern there is a literal label, a whitespace gap, then a capturing group.
`ws k` stands for the gaps `\s*` (k = 0), `\s*\n\s*` (k = 1) and
`\s*\n\s*\n\s*` (k = 2): a run of whitespace containing at least `k`
newlines — since the following capture can never start with a whitespace
character, backtracking inside the gap is immaterial and the run is maximal. -/
inductive RePart where
  | lit (s : String)
  | ws (minNl : ℕ)
  | capNum
  | capSignal

/-- A pattern is a sequence of parts ending in a capture. -/
abbrev RePattern := List RePart

/-- Python `\s` on the inputs of interest (ASCII whitespace). -/
def isPyWs (c : Char) : Bool :=
  c = ' ' || c = '\t' || c = '\n' || c = '\r' || c = '\x0b' || c = '\x0c'

/-- Case-insensitive character comparison (`re.IGNORECASE`). -/
def ciEq (a b : Char) : Bool := a.toUpper = b.toUpper

/-- Match a literal case-insensitively at the head, returning the rest. -/
def litMatch : List Char → List Char → Option (List Char)
  | [], cs => some cs
  | _ :: _, [] => none
  | p :: ps, c :: cs => if ciEq p c then litMatch ps cs else none

/-- Match a whitespace gap requiring at least `minNl` newlines. -/
def wsMatch (minNl : ℕ) (cs : List Char) : Option (List Char) :=
  let run := cs.takeWhile isPyWs
  if minNl ≤ run.count '\n' then some (cs.drop run.length) else none

/-- The numeric capturing group `([\d,]+\.?\d*)`: a nonempty run of digits
and commas, then optionally a point followed by a digit run (all greedy;
deterministic since none of the continuations overlap). -/
def capNumMatch (cs : List Char) : Option String :=
  let r1 := cs.takeWhile (fun c => c.isDigit || c = ',')
  if r1 = [] then none
  else
    match cs.drop r1.length with
    | '.' :: rest2 => some (String.mk (r1 ++ '.' :: rest2.takeWhile Char.isDigit))
    | _ => some (String.mk r1)

/-- The capturing group `(BUY|SELL|HOLD)` under `re.IGNORECASE`, alternatives
tried left to right; captures the text as written. -/
def capSignalMatch (cs : List Char) : Option String :=
  match litMatch "BUY".toList cs with
  | some _ => some (String.mk (cs.take 3))
  | none =>
    match litMatch "SELL".toList cs with
    | some _ => some (String.mk (cs.take 4))
    | none =>
      match litMatch "HOLD".toList cs with
      | some _ => some (String.mk (cs.take 4))
      | none => none

/-- Try to match a whole pattern at the current position, returning the
captured group.  All source patterns end with their capture. -/
def reMatchAt : RePattern → List Char → Option String
  | [], _ => none
  | .lit s :: rest, cs =>
    match litMatch s.toList cs with
    | some cs1 => reMatchAt rest cs1
    | none => none
  | .ws k :: rest, cs =>
    match wsMatch k cs with
    | some cs1 => reMatchAt rest cs1
    | none => none
  | .capNum :: _, cs => capNumMatch cs
  | .capSignal :: _, cs => capSignalMatch cs

/-- `re.search`: the match at the leftmost starting position wins. -/
def reSearch (pat : RePattern) : List Char → Option String
  | [] => reMatchAt pat []
  | c :: cs =>
    match reMatchAt pat (c :: cs) with
    | some g => some g
    | none => reSearch pat cs

/-- The per-field loop of `charts.py` lines 156-180: try the patterns in
order and stop at the first one that matches anywhere (`break` fires whether
or not the captured value later parses as a float). -/
def firstCapture : List RePattern → List Char → Option String
  | [], _ => none
  | p :: rest, cs =>
    match reSearch p cs with
    | some g => some g
    | none => firstCapture rest cs

def signalPatterns : List RePattern :=
  [ [.lit "**SIGNAL**:", .ws 0, .capSignal]
  , [.lit "SIGNAL:", .ws 0, .capSignal]
  , [.lit "Signal:", .ws 0, .capSignal] ]

def entryPatterns : List RePattern :=
  [ [.lit "**ENTRY**:", .ws 0, .capNum]
  , [.lit "ENTRY:", .ws 0, .capNum]
  , [.lit "Entry:", .ws 0, .capNum]
  , [.lit "**ENTRY**:", .ws 1, .capNum]
  , [.lit "**ENTRY**:", .ws 2, .capNum] ]

def tp1Patterns : List RePattern :=
  [ [.lit "**TP1**:", .ws 0, .capNum]
  , [.lit "TP1:", .ws 0, .capNum]
  , [.lit "**TP1**:", .ws 1, .capNum]
  , [.lit "**TP1**:", .ws 2, .capNum] ]

def tp2Patterns : List RePattern :=
  [ [.lit "**TP2**:", .ws 0, .capNum]
  , [.lit "TP2:", .ws 0, .capNum]
  , [.lit "**TP2**:", .ws 1, .capNum]
  , [.lit "**TP2**:", .ws 2, .capNum] ]

def tp3Patterns : List RePattern :=
  [ [.lit "**TP3**:", .ws 0, .capNum]
  , [.lit "TP3:", .ws 0, .capNum]
  , [.lit "**TP3**:", .ws 1, .capNum]
  , [.lit "**TP3**:", .ws 2, .capNum] ]

def slPatterns : List RePattern :=
  [ [.lit "**STOP LOSS**:", .ws 0, .capNum]
  , [.lit "STOP LOSS:", .ws 0, .capNum]
  , [.lit "Stop Loss:", .ws 0, .capNum]
  , [.lit "SL:", .ws 0, .capNum]
  , [.lit "**STOP LOSS**:", .ws 1, .capNum]
  , [.lit "**STOP LOSS**:", .ws 2, .capNum] ]

/-- `match.group(1).replace(',', '')`. -/
def stripCommas (s : String) : String :=
  String.mk (s.toList.filter (fun c => c ≠ ','))

/-- Python `float()` on the strings reachable here (digits and at most the
character point, commas already stripped): defined iff at least one digit and
at most one point are present.  A failure raises `ValueError`, caught at the
use site in `charts.py` line 178 and treated as absent. -/
def pyFloat (s : String) : Option ℚ :=
  let cs := s.toList
  if cs.all (fun c => c.isDigit || c = '.') && cs.any Char.isDigit && cs.count '.' ≤ 1 then
    let ip := cs.takeWhile (fun c => c ≠ '.')
    let fr := match cs.drop ip.length with
      | '.' :: t => t
      | _ => []
    some (digitsToQ ip + digitsToQ fr / qPow10 fr.length)
  else none

/-- One numeric field of the regex phase: first matching pattern wins, then
comma-stripping and float conversion (absent on conversion failure). -/
def numField (pats : List RePattern) (cs : List Char) : Option JVal :=
  (firstCapture pats cs).bind (fun g => (pyFloat (stripCommas g)).map JVal.num)

/-- Regex fallback phase of `extract_trading_levels`
(`charts.py` lines 104-182).  `probability` has no pattern and stays absent. -/
def phase2 (t : String) : Extracted :=
  let cs := t.toList
  { entry := numField entryPatterns cs
    tp1 := numField tp1Patterns cs
    tp2 := numField tp2Patterns cs
    tp3 := numField tp3Patterns cs
    sl := numField slPatterns cs
    signal := (firstCapture signalPatterns cs).map pyUpperStr
    probability := none }

/-- `extract_trading_levels` (`charts.py` lines 59-182): JSON phase first,
returning immediately on success; on no JSON candidate or on a caught
`JSONDecodeError` / `AttributeError`, the regex fallback runs. -/
def extract_trading_levels (t : String) : Extracted :=
  match phase1 t with
  | .success r => r
  | _ => phase2 t

/-- The all-absent tuple. -/
def noLevels : Extracted :=
  { entry := none, tp1 := none, tp2 := none, tp3 := none, sl := none
    signal := none, probability := none }

/-- Decimal digits of a natural number (fuel-structural so that concrete
values reduce). -/
def natDigits : ℕ → ℕ → List Char
  | 0, _ => []
  | fuel + 1, n =>
    if n < 10 then [Char.ofNat ('0'.toNat + n)]
    else natDigits fuel (n / 10) ++ [Char.ofNat ('0'.toNat + n % 10)]

/-- Decimal rendering of a natural number. -/
def natToStr (n : ℕ) : String := String.mk (natDigits (n + 1) n)

/-- Decimal rendering of an integer. -/
def intToStr : ℤ → String
  | .ofNat n => natToStr n
  | .negSucc n => "-" ++ natToStr (n + 1)

/-- Python `format(x, '.df')` for a float modelled as an exact rational:
fixed-point with `d` fractional digits.  (`round` here is round-half-up while
CPython uses round-half-even on the underlying binary float; no value used by
the theorems lies at a tie.) -/
def fmtFixed (d : ℕ) (q : ℚ) : String :=
  let s : ℤ := round (q * qPow10 d)
  let a := s.natAbs
  let ip := a / 10 ^ d
  let fp := a % 10 ^ d
  let fs := natToStr fp
  (if s < 0 then "-" else "") ++ natToStr ip ++
    (if d = 0 then "" else "." ++ String.mk (List.replicate (d - fs.length) '0') ++ fs)

/-- Python `format(x, '+.df')`: as `fmtFixed` with an explicit plus sign on
nonnegative values. -/
def fmtSigned (d : ℕ) (q : ℚ) : String :=
  (if 0 ≤ round (q * qPow10 d) then "+" else "") ++ fmtFixed d q

/-- Stand-in for Python `str()` on the numeric probability interpolated by
`f"...{probability}%"`; any fixed deterministic rendering is adequate for the
claims, which never inspect these digits. -/
def pyNumStr (q : ℚ) : String :=
  if q.den = 1 then intToStr q.num else intToStr q.num ++ "/" ++ natToStr q.den

/-- Python truthiness of an optional float: `None` and `0.0` are falsy. -/
def truthyN : Option ℚ → Bool
  | none => false
  | some q => q ≠ 0

/-- Python truthiness of an optional string: `None` and `""` are falsy. -/
def truthyS : Option String → Bool
  | none => false
  | some s => s ≠ ""

/-- The `SIGNAL_FORMAT` per-field inclusion flags of `config.py` (all `True`
in the shipped configuration; kept as parameters since `format_ai_output`
reads them dynamically). -/
structure SignalFormat where
  entry : Bool
  stoploss : Bool
  tp1 : Bool
  tp2 : Bool
  tp3 : Bool

/-- The structured trading-signal record consumed by the report formatter:
the tuple produced by `extract_trading_levels` with numeric levels. -/
structure TradingSignal where
  entry : Option ℚ
  tp1 : Option ℚ
  tp2 : Option ℚ
  tp3 : Option ℚ
  sl : Option ℚ
  signal : Option String
  probability : Option ℚ

/-- One optional line of the signal report: present iff its guard holds. -/
def sigLine (b : Bool) (s : String) : String := if b then s else ""

/-- The `signal_text` accumulation of `format_ai_output`
(`charts.py` lines 18-32 and identically 41-55): header plus one line per
truthy field, the five price levels additionally gated by `SIGNAL_FORMAT`. -/
def signal_text (L : TradingSignal) (F : SignalFormat) (symbol : String) : String :=
  "📊 #" ++ symbol ++ " SIGNALS:\n"
    ++ sigLine (truthyS L.signal) ("📈 Signal: " ++ L.signal.getD "" ++ "\n")
    ++ sigLine (truthyN L.probability)
      ("🎯 Probability: " ++ pyNumStr (L.probability.getD 0) ++ "%\n")
    ++ sigLine (truthyN L.entry && F.entry) ("🎯 Entry: " ++ fmtFixed 4 (L.entry.getD 0) ++ "\n")
    ++ sigLine (truthyN L.sl && F.stoploss) ("🛑 SL: " ++ fmtFixed 4 (L.sl.getD 0) ++ "\n")
    ++ sigLine (truthyN L.tp1 && F.tp1) ("🎯 TP1: " ++ fmtFixed 4 (L.tp1.getD 0) ++ "\n")
    ++ sigLine (truthyN L.tp2 && F.tp2) ("🎯 TP2: " ++ fmtFixed 4 (L.tp2.getD 0) ++ "\n")
    ++ sigLine (truthyN L.tp3 && F.tp3) ("🎯 TP3: " ++ fmtFixed 4 (L.tp3.getD 0) ++ "\n")

/-- `format_ai_output` (`charts.py` lines 12-57).  The `TradingSignal`
argument stands for the tuple the source obtains by calling
`extract_trading_levels` on the analysis text (line 14); the claims quantify
over it directly.  `mode` is the configured `AI_OUTPUT_MODE` (`"both"` in the
shipped configuration); anything other than `"signal"`/`"detailed"` takes the
`else` branch. -/
def format_ai_output (mode : String) (L : TradingSignal) (F : SignalFormat)
    (symbol analysis : String) : String :=
  if mode = "signal" then signal_text L F symbol
  else if mode = "detailed" then "🤖 AI Analysis for #" ++ symbol ++ ":\n" ++ analysis
  else signal_text L F symbol ++ "\n\n🤖 Detailed Analysis:\n" ++ analysis

/-- Map a falsy (Python-`if`-rejected) optional float to `none`. -/
def dezeroN : Option ℚ → Option ℚ
  | none => none
  | some q => if q = 0 then none else some q

/-- Map a falsy optional string to `none`. -/
def dezeroS : Option String → Option String
  | none => none
  | some s => if s = "" then none else some s

/-- Replace every falsy field of a `TradingSignal` by `none`. -/
def dezero (L : TradingSignal) : TradingSignal :=
  { entry := dezeroN L.entry, tp1 := dezeroN L.tp1, tp2 := dezeroN L.tp2
    tp3 := dezeroN L.tp3, sl := dezeroN L.sl, signal := dezeroS L.signal
    probability := dezeroN L.probability }

/-- The f-string fragment `\x7bx:.2f if x else ...\x7d` of `charts.py`
lines 377-381 passes the text after the colon literally as a format
specification, which is never valid: `format` raises `ValueError` on a float
and `TypeError` on `None` (whose `__format__` rejects any nonempty spec). -/
def pyFormatInvalidSpec : Option ℚ → Except PyErr String
  | none => .error .typeError
  | some _ => .error .valueError

/-- `levels_text` of the PNG-failure fallback (`charts.py` lines 373-381):
empty when no level is truthy, otherwise an f-string that formats all five
levels with the invalid conditional spec (fields evaluated top to bottom). -/
def levels_text (entry tp1 tp2 tp3 sl : Option ℚ) : Except PyErr String :=
  if truthyN entry || truthyN tp1 || truthyN tp2 || truthyN tp3 || truthyN sl then do
    let e ← pyFormatInvalidSpec entry
    let a ← pyFormatInvalidSpec tp1
    let b ← pyFormatInvalidSpec tp2
    let c ← pyFormatInvalidSpec tp3
    let s ← pyFormatInvalidSpec sl
    .ok ("\n🎯 Trading Levels:\nEntry: " ++ e ++ "\nTP1: " ++ a ++ "\nTP2: " ++ b
      ++ "\nTP3: " ++ c ++ "\nSL: " ++ s)
  else .ok ""

/-- `rsi_status` / `rsi_text` of the fallback (`charts.py` lines 358-360). -/
def rsi_text (r : ℚ) : String :=
  "RSI: " ++ fmtFixed 1 r ++ " (" ++
    (if 70 < r then "Overbought" else if r < 30 then "Oversold" else "Neutral") ++ ")"

/-- `ema_text` of the fallback (`charts.py` lines 363-370) for the first two
configured EMA periods 20 and 50. -/
def ema_text (e1 e2 : ℚ) : String :=
  "EMA Trend: " ++ (if e2 < e1 then "Bullish" else "Bearish") ++
    " (20: " ++ fmtFixed 2 e1 ++ ", 50: " ++ fmtFixed 2 e2 ++ ")"

/-- The textual-summary fallback of `generate_charts`
(`charts.py` lines 346-394), parameterised by the last-row chart data the
source reads off the dataframe. -/
def fallback_summary (symbol : String) (latestClose latestOpen high low currentRsi ema1 ema2 : ℚ)
    (entry tp1 tp2 tp3 sl : Option ℚ) : Except PyErr String := do
  let lv ← levels_text entry tp1 tp2 tp3 sl
  .ok ("\n📊 #" ++ symbol ++ " Technical Analysis:\n💰 Current Price: " ++ fmtFixed 4 latestClose
    ++ "\n📈 Change: " ++ fmtSigned 4 (latestClose - latestOpen)
    ++ " (" ++ fmtSigned 2 ((latestClose - latestOpen) / latestOpen * 100) ++ "%)"
    ++ "\n📊 High: " ++ fmtFixed 4 high ++ "\n📉 Low: " ++ fmtFixed 4 low
    ++ "\n" ++ rsi_text currentRsi ++ "\n" ++ ema_text ema1 ema2 ++ lv
    ++ "\n⏰ Timeframe: Last 5 minutes\n        ")

/-- `generate_charts` outcome model (`charts.py` lines 309-394): the
Playwright PNG export is external I/O, abstracted as the flag `pngOk`; on
success the PNG path is returned, otherwise the textual-summary fallback
runs (which itself can raise, see `levels_text`). -/
def generate_charts (pngOk : Bool) (pngPath symbol : String)
    (latestClose latestOpen high low currentRsi ema1 ema2 : ℚ)
    (entry tp1 tp2 tp3 sl : Option ℚ) : Except PyErr String :=
  if pngOk then .ok pngPath
  else fallback_summary symbol latestClose latestOpen high low currentRsi ema1 ema2
    entry tp1 tp2 tp3 sl

/-- `EMA_PERIODS` of `config.py`. -/
def EMA_PERIODS : List ℕ := [20, 50, 200]

/-- `RSI_PERIOD` of `config.py`. -/
def RSI_PERIOD : ℕ := 14

/-- `VOLATILITY_PERIOD` of `config.py`. -/
def VOLATILITY_PERIOD : ℕ := 20

/-- `max(EMA_PERIODS)` as computed in `get_symbol_data` / `get_bybit_coin_data`. -/
def maxPeriod : ℕ := EMA_PERIODS.foldl max 0

/-- Mean of the `w` closes starting at index `start`
(used for the EMA seed and the SMA / variance windows). -/
def smaWindow (c : ℕ → ℚ) (start w : ℕ) : ℚ :=
  (∑ j ∈ Finset.range w, c (start + j)) / (w : ℚ)

/-- `pandas_ta.ema` recursion with the default SMA seed: value at row
`(p - 1) + k`; seed is the simple average of the first `p` closes, then
exponential smoothing with factor `2 / (p + 1)`. -/
def emaVal (p : ℕ) (c : ℕ → ℚ) : ℕ → ℚ
  | 0 => smaWindow c 0 p
  | k + 1 => (2 / (p + 1 : ℚ)) * c (p + k) + (1 - 2 / (p + 1 : ℚ)) * emaVal p c k

/-- `ema_<p>` column of a length-`n` close series: defined from row `p - 1`
on (`pandas_ta` leaves the warm-up rows, and any series shorter than `p`,
undefined). -/
def emaAt (p : ℕ) (c : ℕ → ℚ) (n i : ℕ) : Option ℚ :=
  if p - 1 ≤ i ∧ i < n then some (emaVal p c (i - (p - 1))) else none

/-- Bar-to-bar gain at row `k ≥ 1`: `max(close_k - close_(k-1), 0)`. -/
def gain (c : ℕ → ℚ) (k : ℕ) : ℚ := max (c k - c (k - 1)) 0

/-- Bar-to-bar loss at row `k ≥ 1`: `max(close_(k-1) - close_k, 0)`. -/
def loss (c : ℕ → ℚ) (k : ℕ) : ℚ := max (c (k - 1) - c k) 0

/-- Numerator of the Wilder moving average (`pandas` `ewm` with
`alpha = 1/RSI_PERIOD`, `adjust=True`) over rows `1..i` of `f`: the weighted
sum with weights `(1 - alpha)^(i-k)`.  The `ewm` denominator is the same for
gains and losses and cancels in the RSI ratio. -/
def rmaNum (f : ℕ → ℚ) (i : ℕ) : ℚ :=
  ∑ k ∈ Finset.Icc 1 i, (1 - 1 / (RSI_PERIOD : ℚ)) ^ (i - k) * f k

/-- `rsi` column (`pandas_ta.rsi`, Wilder smoothing): defined from row
`RSI_PERIOD` on; `100 * G / (G + L)` with the smoothed gain/loss sums,
undefined (NaN, from `0/0`) when both sums vanish. -/
def rsiAt (c : ℕ → ℚ) (n i : ℕ) : Option ℚ :=
  if RSI_PERIOD ≤ i ∧ i < n then
    if rmaNum (gain c) i + rmaNum (loss c) i = 0 then none
    else some (100 * rmaNum (gain c) i / (rmaNum (gain c) i + rmaNum (loss c) i))
  else none

/-- Rolling sample variance (ddof = 1) over a window `w` ending at row `i`:
defined from row `w - 1` on.  `pandas_ta.stdev` is the square root of this;
taking the root preserves definedness, which is all the claims consume, and
keeps the embedding inside `ℚ`. -/
def volatilityVarAt (w : ℕ) (c : ℕ → ℚ) (n i : ℕ) : Option ℚ :=
  if w - 1 ≤ i ∧ i < n then
    some ((∑ j ∈ Finset.range w, (c (i + 1 - w + j) - smaWindow c (i + 1 - w) w) ^ 2) / (w - 1 : ℚ))
  else none

/-- `sma_20`-style rolling-mean column: defined from row `w - 1` on. -/
def smaAt (w : ℕ) (c : ℕ → ℚ) (n i : ℕ) : Option ℚ :=
  if w - 1 ≤ i ∧ i < n then some (smaWindow c (i + 1 - w) w) else none

/-- `price_change` column (`close.diff()`): undefined at row 0. -/
def priceChangeAt (c : ℕ → ℚ) (n i : ℕ) : Option ℚ :=
  if 1 ≤ i ∧ i < n then some (c i - c (i - 1)) else none

/-- `price_change_pct` column (`close.pct_change() * 100`): undefined at
row 0.  A zero previous close yields `inf`/NaN in floating point; it is
modelled as undefined here and the defined-ness claims assume nonzero
closes. -/
def priceChangePctAt (c : ℕ → ℚ) (n i : ℕ) : Option ℚ :=
  if 1 ≤ i ∧ i < n ∧ c (i - 1) ≠ 0 then some (100 * (c i - c (i - 1)) / c (i - 1)) else none

/-- A close series with its indicator columns (positional row access, as in
the dataframe). -/
structure IndicatorFrame where
  n : ℕ
  close : ℕ → ℚ
  ema20 : ℕ → Option ℚ
  ema50 : ℕ → Option ℚ
  ema200 : ℕ → Option ℚ
  rsi : ℕ → Option ℚ
  price_change : ℕ → Option ℚ
  price_change_pct : ℕ → Option ℚ
  volatility : ℕ → Option ℚ
  sma_20 : ℕ → Option ℚ

/-- `add_technical_indicators` (`data_fetcher.py` lines 15-40): EMA for each
configured period, RSI, price deltas, rolling volatility, SMA-20. -/
def add_technical_indicators (n : ℕ) (c : ℕ → ℚ) : IndicatorFrame :=
  { n := n
    close := c
    ema20 := emaAt 20 c n
    ema50 := emaAt 50 c n
    ema200 := emaAt 200 c n
    rsi := rsiAt c n
    price_change := priceChangeAt c n
    price_change_pct := priceChangePctAt c n
    volatility := volatilityVarAt VOLATILITY_PERIOD c n
    sma_20 := smaAt 20 c n }

/-- The warm-up trim of `get_symbol_data` / `get_coin_data` /
`get_bybit_coin_data`: when the frame is strictly longer than
`max(EMA_PERIODS)`, drop the leading `maxPeriod` rows (`df.iloc[200:]` with
index reset). -/
def trimWarmup (f : IndicatorFrame) : IndicatorFrame :=
  if maxPeriod < f.n then
    { n := f.n - maxPeriod
      close := fun i => f.close (i + maxPeriod)
      ema20 := fun i => f.ema20 (i + maxPeriod)
      ema50 := fun i => f.ema50 (i + maxPeriod)
      ema200 := fun i => f.ema200 (i + maxPeriod)
      rsi := fun i => f.rsi (i + maxPeriod)
      price_change := fun i => f.price_change (i + maxPeriod)
      price_change_pct := fun i => f.price_change_pct (i + maxPeriod)
      volatility := fun i => f.volatility (i + maxPeriod)
      sma_20 := fun i => f.sma_20 (i + maxPeriod) }
  else f

/-- Every indicator column is defined at row `i`. -/
def rowDefined (f : IndicatorFrame) (i : ℕ) : Prop :=
  (f.ema20 i).isSome ∧ (f.ema50 i).isSome ∧ (f.ema200 i).isSome ∧ (f.rsi i).isSome ∧
    (f.price_change i).isSome ∧ (f.price_change_pct i).isSome ∧
    (f.volatility i).isSome ∧ (f.sma_20 i).isSome

instance (f : IndicatorFrame) (i : ℕ) : Decidable (rowDefined f i) :=
  inferInstanceAs (Decidable ((f.ema20 i).isSome ∧ (f.ema50 i).isSome ∧ (f.ema200 i).isSome ∧
    (f.rsi i).isSome ∧ (f.price_change i).isSome ∧ (f.price_change_pct i).isSome ∧
    (f.volatility i).isSome ∧ (f.sma_20 i).isSome))

/-- One raw OHLC bar after field parsing: `ts` is the parsed timestamp
(`pd.to_datetime` result, order-isomorphic to the datetime strings the frame
later carries) and the four prices are parsed floats. -/
structure RawBar where
  ts : ℕ
  op : ℚ
  hi : ℚ
  lo : ℚ
  cl : ℚ
deriving DecidableEq

instance : Inhabited RawBar := ⟨⟨0, 0, 0, 0, 0⟩⟩

/-- `df.sort_values('datetime')`: ascending sort by timestamp (pandas keeps
equal keys in some order; which one is immaterial to the timestamp claims). -/
def sortBars (bs : List RawBar) : List RawBar :=
  bs.insertionSort (fun a b => a.ts ≤ b.ts)

/-- Timestamps of a bar list. -/
def tsList (bs : List RawBar) : List ℕ := bs.map RawBar.ts

/-- Positional close-column access of a bar list. -/
def closesOf (bs : List RawBar) : ℕ → ℚ := fun i => (bs.getD i default).cl

/-- The bar rows remaining after the warm-up trim. -/
def trimBars (bs : List RawBar) : List RawBar :=
  if maxPeriod < bs.length then bs.drop maxPeriod else bs

/-- The `values` slot of a twelvedata payload: absent, raw bar records, or
the processed records (bars plus indicator columns) written back by
`get_symbol_data`. -/
inductive TDValues where
  | absent
  | raw (bars : List RawBar)
  | processed (bars : List RawBar) (ind : IndicatorFrame)

/-- A twelvedata `time_series` response payload. -/
structure TDPayload where
  status : String
  message : String
  values : TDValues

/-- Per-payload body of the `get_symbol_data` loop
(`data_fetcher.py` lines 50-74, identical in `get_coin_data` lines 87-109):
only a payload with a `values` key and `status == 'ok'` is normalized
(chronological sort, float coercion, indicators, warm-up trim) — any other
payload is appended unchanged, without any exception. -/
def processPayload (p : TDPayload) : TDPayload :=
  match p.values with
  | .raw bs =>
    if p.status = "ok" then
      let sorted := sortBars bs
      let ind := trimWarmup (add_technical_indicators sorted.length (closesOf sorted))
      { p with values := TDValues.processed (trimBars sorted) ind }
    else p
  | _ => p

/-- `get_symbol_data` over already-fetched payloads (the HTTP fetch is
external).  Typed with `Except` to make explicit that no code path of the
loop raises. -/
def get_symbol_data (ps : List TDPayload) : Except PyErr (List TDPayload) :=
  .ok (ps.map processPayload)

/-- The bars of a `TDValues` slot. -/
def valuesBars : TDValues → List RawBar
  | .absent => []
  | .raw bs => bs
  | .processed bs _ => bs

/-- A Bybit `mark-price-kline` response payload (`retMsg`, symbol, kline
rows; rows already field-parsed as in `RawBar`). -/
structure BybitPayload where
  retMsg : String
  symbol : String
  list : List RawBar

/-- A Bybit payload after normalization, with the indicator frame written
into its `values` key (`retMsg` is retained in the dict). -/
structure BybitProcessed where
  retMsg : String
  symbol : String
  bars : List RawBar
  ind : IndicatorFrame

/-- Normalisation of one successful Bybit payload
(`bybit.py` lines 47-63): sort, float coercion, indicators, warm-up trim. -/
def processBybit (p : BybitPayload) : BybitProcessed :=
  let sorted := sortBars p.list
  { retMsg := p.retMsg
    symbol := p.symbol
    bars := trimBars sorted
    ind := trimWarmup (add_technical_indicators sorted.length (closesOf sorted)) }

/-- The fetch loop of `get_bybit_coin_data` (`bybit.py` lines 39-67) with
accumulator `acc` (the `json_data` list).  On a payload with
`retMsg != 'OK'` the source raises
`Exception(f"Error: \x7bjson_data[0]['retMsg']\x7d")` — reading the FIRST
ACCUMULATED (previous, necessarily successful) payload, which is an
`IndexError` when the failing payload is the first one. -/
def bybitLoop : List BybitPayload → List BybitProcessed → Except PyErr (List BybitProcessed)
  | [], acc => .ok acc
  | p :: rest, acc =>
    if p.retMsg = "OK" then bybitLoop rest (acc ++ [processBybit p])
    else
      match acc.head? with
      | none => .error .indexError
      | some q => .error (.exception ("Error: " ++ q.retMsg))

/-- `get_bybit_coin_data` over already-fetched payloads. -/
def get_bybit_coin_data (ps : List BybitPayload) : Except PyErr (List BybitProcessed) :=
  bybitLoop ps []

/-- The bar-ordering behaviour of `extract_df` (`charts.py` lines 397-428):
the frame is re-sorted by its datetime strings (order-isomorphic to the
timestamps) unless the provider tag is `"bybit"`, whose delivery order is
trusted. -/
def extract_df_order (exchange : String) (bars : List RawBar) : List RawBar :=
  if exchange = "bybit" then bars else sortBars bars

/-- Strictly increasing timestamps. -/
def strictChron (bs : List RawBar) : Prop :=
  (tsList bs).Chain' (· < ·)

/-- Non-decreasing timestamps. -/
def sortedChron (bs : List RawBar) : Prop :=
  (tsList bs).Chain' (· ≤ ·)

instance (bs : List RawBar) : Decidable (strictChron bs) :=
  inferInstanceAs (Decidable ((tsList bs).Chain' (· < ·)))

instance (bs : List RawBar) : Decidable (sortedChron bs) :=
  inferInstanceAs (Decidable ((tsList bs).Chain' (· ≤ ·)))

instance : IsTotal RawBar (fun a b => a.ts ≤ b.ts) :=
  ⟨fun a b => Nat.le_total a.ts b.ts⟩

instance : IsTrans RawBar (fun a b => a.ts ≤ b.ts) :=
  ⟨fun _ _ _ h1 h2 => Nat.le_trans h1 h2⟩

theorem truthyN_dezeroN (o : Option ℚ) : truthyN (dezeroN o) = truthyN o := by
  cases o with
  | none => rfl
  | some q =>
    by_cases h : q = 0 <;> simp [dezeroN, truthyN, h]

theorem sigLine_false (s : String) : sigLine false s = "" := rfl

theorem sigLineN_flag_dezero (o : Option ℚ) (b : Bool) (pre post : String) :
    sigLine (truthyN (dezeroN o) && b) (pre ++ fmtFixed 4 ((dezeroN o).getD 0) ++ post) =
      sigLine (truthyN o && b) (pre ++ fmtFixed 4 (o.getD 0) ++ post) := by
  cases o with
  | none => rfl
  | some q =>
    by_cases h : q = 0 <;> simp [dezeroN, truthyN, h, sigLine]

theorem sigLineN_prob_dezero (o : Option ℚ) (pre post : String) :
    sigLine (truthyN (dezeroN o)) (pre ++ pyNumStr ((dezeroN o).getD 0) ++ post) =
      sigLine (truthyN o) (pre ++ pyNumStr (o.getD 0) ++ post) := by
  cases o with
  | none => rfl
  | some q =>
    by_cases h : q = 0 <;> simp [dezeroN, truthyN, h, sigLine]

theorem sigLineS_dezero (o : Option String) (pre post : String) :
    sigLine (truthyS (dezeroS o)) (pre ++ (dezeroS o).getD "" ++ post) =
      sigLine (truthyS o) (pre ++ o.getD "" ++ post) := by
  cases o with
  | none => rfl
  | some s =>
    by_cases h : s = "" <;> simp [dezeroS, truthyS, h, sigLine]

theorem signal_text_dezero (L : TradingSignal) (F : SignalFormat) (symbol : String) :
    signal_text (dezero L) F symbol = signal_text L F symbol := by
  show "📊 #" ++ symbol ++ " SIGNALS:\n"
      ++ sigLine (truthyS (dezeroS L.signal)) ("📈 Signal: " ++ (dezeroS L.signal).getD "" ++ "\n")
      ++ sigLine (truthyN (dezeroN L.probability))
        ("🎯 Probability: " ++ pyNumStr ((dezeroN L.probability).getD 0) ++ "%\n")
      ++ sigLine (truthyN (dezeroN L.entry) && F.entry)
        ("🎯 Entry: " ++ fmtFixed 4 ((dezeroN L.entry).getD 0) ++ "\n")
      ++ sigLine (truthyN (dezeroN L.sl) && F.stoploss)
        ("🛑 SL: " ++ fmtFixed 4 ((dezeroN L.sl).getD 0) ++ "\n")
      ++ sigLine (truthyN (dezeroN L.tp1) && F.tp1)
        ("🎯 TP1: " ++ fmtFixed 4 ((dezeroN L.tp1).getD 0) ++ "\n")
      ++ sigLine (truthyN (dezeroN L.tp2) && F.tp2)
        ("🎯 TP2: " ++ fmtFixed 4 ((dezeroN L.tp2).getD 0) ++ "\n")
      ++ sigLine (truthyN (dezeroN L.tp3) && F.tp3)
        ("🎯 TP3: " ++ fmtFixed 4 ((dezeroN L.tp3).getD 0) ++ "\n")
    = signal_text L F symbol
  rw [sigLineS_dezero, sigLineN_prob_dezero, sigLineN_flag_dezero, sigLineN_flag_dezero,
    sigLineN_flag_dezero, sigLineN_flag_dezero, sigLineN_flag_dezero]
  rfl

/-- C2: for every input analysis text `extract_trading_levels` returns a
tuple without raising (every exception the body can raise —
`json.JSONDecodeError` and `AttributeError` in the JSON phase, `ValueError`
at the float conversions — is caught inside, as the `Phase1Result` / `Option`
plumbing of the embedding makes explicit), each field resolving to a value or
`none`; on empty or entirely unparseable text, including text whose brace
candidate fails to parse as JSON, all seven fields are absent. -/
theorem extractor_total_and_all_absent_on_unparseable :
    (∀ t : String, ∃ r : Extracted, extract_trading_levels t = r) ∧
    extract_trading_levels "" = noLevels ∧
    extract_trading_levels "hello world" = noLevels ∧
    extract_trading_levels "a \x7b b \x7d c" = noLevels := by
  refine ⟨fun t => ⟨_, rfl⟩, ?_, ?_, ?_⟩ <;> with_unfolding_all rfl

/-- C3: on the JSON input `\x7b"signal":"buy","entry":100,"stop_loss":95,"tp1":105\x7d`
the extractor returns from the JSON phase (so the regex fallback never runs)
with signal `"BUY"`, entry 100, stop-loss 95, tp1 105 and the remaining
fields absent. -/
theorem extractor_json_input_returns_in_phase1 :
    phase1 "\x7b\"signal\":\"buy\",\"entry\":100,\"stop_loss\":95,\"tp1\":105\x7d" =
      .success { entry := some (.num 100), tp1 := some (.num 105), tp2 := none, tp3 := none,
                 sl := some (.num 95), signal := some "BUY", probability := none } ∧
    extract_trading_levels "\x7b\"signal\":\"buy\",\"entry\":100,\"stop_loss\":95,\"tp1\":105\x7d" =
      { entry := some (.num 100), tp1 := some (.num 105), tp2 := none, tp3 := none,
        sl := some (.num 95), signal := some "BUY", probability := none } := by
  exact ⟨by with_unfolding_all rfl, by with_unfolding_all rfl⟩

/-- C4: on the label/value text `**SIGNAL**: SELL`, `**ENTRY**:` followed by
a blank line and `1234.5`, and `**STOP LOSS**: 1,200.00` — with no JSON
candidate present, so the regex fallback runs — the extractor returns
signal `"SELL"`, entry 1234.5 and stop-loss 1200.0 (thousands-separator
comma stripped before float conversion), other fields absent. -/
theorem extractor_regex_fallback_c4 :
    phase1 "**SIGNAL**: SELL\n**ENTRY**:\n\n1234.5\n**STOP LOSS**: 1,200.00" = .noJson ∧
    extract_trading_levels "**SIGNAL**: SELL\n**ENTRY**:\n\n1234.5\n**STOP LOSS**: 1,200.00" =
      { entry := some (.num (2469 / 2)), tp1 := none, tp2 := none, tp3 := none,
        sl := some (.num 1200), signal := some "SELL", probability := none } := by
  exact ⟨by with_unfolding_all rfl, by with_unfolding_all rfl⟩

/-- C10: in the signal report (used by modes `signal` and `both`) a field
whose extracted value is Python-falsy — a zero price level or probability, or
an empty-string signal — produces no output line, exactly as if it were
absent, whatever the `SIGNAL_FORMAT` inclusion flags say; with every field
falsy and all flags true the report is the bare header. -/
theorem falsy_fields_formatted_as_absent :
    (∀ (L : TradingSignal) (F : SignalFormat) (symbol analysis : String),
      format_ai_output "signal" (dezero L) F symbol analysis =
        format_ai_output "signal" L F symbol analysis ∧
      format_ai_output "both" (dezero L) F symbol analysis =
        format_ai_output "both" L F symbol analysis) ∧
    format_ai_output "signal"
      { entry := some 0, tp1 := some 0, tp2 := some 0, tp3 := some 0, sl := some 0,
        signal := some "", probability := some 0 }
      { entry := true, stoploss := true, tp1 := true, tp2 := true, tp3 := true }
      "X" "A" = "📊 #X SIGNALS:\n" := by
  constructor
  · intro L F symbol analysis
    constructor
    · show signal_text (dezero L) F symbol = signal_text L F symbol
      exact signal_text_dezero L F symbol
    · show signal_text (dezero L) F symbol ++ "\n\n🤖 Detailed Analysis:\n" ++ analysis =
        signal_text L F symbol ++ "\n\n🤖 Detailed Analysis:\n" ++ analysis
      rw [signal_text_dezero L F symbol]
  · with_unfolding_all rfl

/-- C8 counterexample: already for the all-absent signal record, symbol `X`
and analysis `A`, the mode-`both` output is not the mode-`signal` output
followed (with a separating blank line, under either reading of the
separator) by the mode-`detailed` output: the two tails carry different
headers (`Detailed Analysis:` vs `AI Analysis for #X:`). -/
theorem both_mode_is_not_signal_then_detailed :
    format_ai_output "both"
        { entry := none, tp1 := none, tp2 := none, tp3 := none, sl := none,
          signal := none, probability := none }
        { entry := true, stoploss := true, tp1 := true, tp2 := true, tp3 := true } "X" "A" ≠
      format_ai_output "signal"
        { entry := none, tp1 := none, tp2 := none, tp3 := none, sl := none,
          signal := none, probability := none }
        { entry := true, stoploss := true, tp1 := true, tp2 := true, tp3 := true } "X" "A"
      ++ "\n" ++
      format_ai_output "detailed"
        { entry := none, tp1 := none, tp2 := none, tp3 := none, sl := none,
          signal := none, probability := none }
        { entry := true, stoploss := true, tp1 := true, tp2 := true, tp3 := true } "X" "A" ∧
    format_ai_output "both"
        { entry := none, tp1 := none, tp2 := none, tp3 := none, sl := none,
          signal := none, probability := none }
        { entry := true, stoploss := true, tp1 := true, tp2 := true, tp3 := true } "X" "A" ≠
      format_ai_output "signal"
        { entry := none, tp1 := none, tp2 := none, tp3 := none, sl := none,
          signal := none, probability := none }
        { entry := true, stoploss := true, tp1 := true, tp2 := true, tp3 := true } "X" "A"
      ++ "\n\n" ++
      format_ai_output "detailed"
        { entry := none, tp1 := none, tp2 := none, tp3 := none, sl := none,
          signal := none, probability := none }
        { entry := true, stoploss := true, tp1 := true, tp2 := true, tp3 := true } "X" "A" := by
  exact ⟨by decide, by decide⟩

/-- C8 amended: for every signal record, flags, symbol and analysis text, the
mode-`both` output is the mode-`signal` output followed by a blank line and
the fixed tail `🤖 Detailed Analysis:` plus the raw analysis text — not by
the mode-`detailed` output, whose header (`🤖 AI Analysis for #symbol:`)
names the symbol. -/
theorem both_mode_structure (L : TradingSignal) (F : SignalFormat) (symbol analysis : String) :
    format_ai_output "both" L F symbol analysis =
      format_ai_output "signal" L F symbol analysis ++ "\n\n🤖 Detailed Analysis:\n" ++ analysis := by
  rfl

/-- C9 (the known formatting bug): when PNG rendering fails and at least one
trading level was extracted (here `entry = 100`), `generate_charts` does not
fall back to the textual summary — building `levels_text` raises
`ValueError`, because the f-string passes `.2f if entry else ...` literally
as a format specification; with no level present the fallback does return a
summary string. -/
theorem generate_charts_fallback_raises_on_present_level :
    generate_charts false "chart.png" "BTCUSD" 10 9 11 8 50 3 2
        (some 100) none none none none = .error .valueError ∧
    (∃ s : String, generate_charts false "chart.png" "BTCUSD" 10 9 11 8 50 3 2
        none none none none none = .ok s) := by
  refine ⟨by with_unfolding_all rfl, ⟨_, by with_unfolding_all rfl⟩⟩

theorem gain_nonneg (c : ℕ → ℚ) (k : ℕ) : 0 ≤ gain c k := le_max_right _ _

theorem loss_nonneg (c : ℕ → ℚ) (k : ℕ) : 0 ≤ loss c k := le_max_right _ _

theorem wilderW_pos : (0 : ℚ) < 1 - 1 / (RSI_PERIOD : ℚ) := by
  norm_num [RSI_PERIOD]

theorem rmaNum_nonneg (f : ℕ → ℚ) (i : ℕ) (hf : ∀ k, 0 ≤ f k) : 0 ≤ rmaNum f i :=
  Finset.sum_nonneg fun k _ => mul_nonneg (pow_nonneg wilderW_pos.le _) (hf k)

theorem rmaNum_add (f g : ℕ → ℚ) (i : ℕ) :
    rmaNum (fun k => f k + g k) i = rmaNum f i + rmaNum g i := by
  simp [rmaNum, mul_add, Finset.sum_add_distrib]

theorem gain_add_loss (c : ℕ → ℚ) (k : ℕ) : gain c k + loss c k = |c k - c (k - 1)| := by
  rw [gain, loss, ← neg_sub (c k) (c (k - 1))]
  exact max_zero_add_max_neg_zero_eq_abs_self _

theorem rmaNum_gain_loss_pos (c : ℕ → ℚ) (i k₀ : ℕ) (h1 : 1 ≤ k₀) (h2 : k₀ ≤ i)
    (hne : c k₀ ≠ c (k₀ - 1)) : 0 < rmaNum (gain c) i + rmaNum (loss c) i := by
  rw [← rmaNum_add]
  apply Finset.sum_pos'
  · intro k _
    exact mul_nonneg (pow_nonneg wilderW_pos.le _) (add_nonneg (gain_nonneg c k) (loss_nonneg c k))
  · refine ⟨k₀, Finset.mem_Icc.mpr ⟨h1, h2⟩, ?_⟩
    apply mul_pos (pow_pos wilderW_pos _)
    show 0 < gain c k₀ + loss c k₀
    rw [gain_add_loss]
    exact abs_pos.mpr (sub_ne_zero.mpr hne)

theorem rmaNum_eq_zero (f : ℕ → ℚ) (i : ℕ) (hf : ∀ k, f k = 0) : rmaNum f i = 0 := by
  simp [rmaNum, hf]

theorem gain_const (q : ℚ) (k : ℕ) : gain (fun _ => q) k = 0 := by
  simp [gain]

theorem loss_const (q : ℚ) (k : ℕ) : loss (fun _ => q) k = 0 := by
  simp [loss]

/-- On a constant close series the smoothed gains and losses both vanish, so
the RSI ratio is `0/0`: NaN in the source, i.e. undefined at every row. -/
theorem rsiAt_const (q : ℚ) (n i : ℕ) : rsiAt (fun _ => q) n i = none := by
  unfold rsiAt
  split
  · rw [rmaNum_eq_zero _ _ (gain_const q), rmaNum_eq_zero _ _ (loss_const q)]
    simp
  · rfl

theorem emaAt_isSome (p : ℕ) (c : ℕ → ℚ) (n i : ℕ) (h1 : p - 1 ≤ i) (h2 : i < n) :
    (emaAt p c n i).isSome = true := by
  rw [emaAt, if_pos ⟨h1, h2⟩]; rfl

theorem rsiAt_isSome (c : ℕ → ℚ) (n i : ℕ) (h1 : RSI_PERIOD ≤ i) (h2 : i < n)
    (hpos : 0 < rmaNum (gain c) i + rmaNum (loss c) i) : (rsiAt c n i).isSome = true := by
  rw [rsiAt, if_pos ⟨h1, h2⟩]
  simp only [hpos.ne', if_false, Option.isSome_some]

theorem volatilityVarAt_isSome (w : ℕ) (c : ℕ → ℚ) (n i : ℕ) (h1 : w - 1 ≤ i) (h2 : i < n) :
    (volatilityVarAt w c n i).isSome = true := by
  rw [volatilityVarAt, if_pos ⟨h1, h2⟩]; rfl

theorem smaAt_isSome (w : ℕ) (c : ℕ → ℚ) (n i : ℕ) (h1 : w - 1 ≤ i) (h2 : i < n) :
    (smaAt w c n i).isSome = true := by
  rw [smaAt, if_pos ⟨h1, h2⟩]; rfl

theorem priceChangeAt_isSome (c : ℕ → ℚ) (n i : ℕ) (h1 : 1 ≤ i) (h2 : i < n) :
    (priceChangeAt c n i).isSome = true := by
  rw [priceChangeAt, if_pos ⟨h1, h2⟩]; rfl

theorem priceChangePctAt_isSome (c : ℕ → ℚ) (n i : ℕ) (h1 : 1 ≤ i) (h2 : i < n)
    (h3 : c (i - 1) ≠ 0) : (priceChangePctAt c n i).isSome = true := by
  rw [priceChangePctAt, if_pos ⟨h1, h2, h3⟩]; rfl

/-- C5 counterexample: a normalized series of 201 constant closes is strictly
longer than `max(EMA_PERIODS) = 200`, yet after indicator computation and
warm-up trimming its remaining row does NOT have every indicator defined —
the `rsi` column is undefined everywhere on a constant series (`0/0`). -/
theorem trimmed_constant_series_has_undefined_rsi :
    ¬ (∀ i, i < (trimWarmup (add_technical_indicators 201 (fun _ => (5 : ℚ)))).n →
        rowDefined (trimWarmup (add_technical_indicators 201 (fun _ => (5 : ℚ)))) i) := by
  intro h
  have h0 := (h 0 (by norm_num [trimWarmup, add_technical_indicators, maxPeriod,
    EMA_PERIODS])).2.2.2.1
  have hrsi : (trimWarmup (add_technical_indicators 201 (fun _ => (5 : ℚ)))).rsi 0 =
      rsiAt (fun _ => (5 : ℚ)) 201 200 := rfl
  rw [hrsi, rsiAt_const] at h0
  simp at h0

/-- C5 amended: for a normalized close series strictly longer than
`max(EMA_PERIODS) = 200` bars whose closes are nonzero (so `pct_change` is
finite) and which is not constant on its first `maxPeriod + 1` bars (so the
RSI denominator is nonzero), every remaining row after indicator computation
and warm-up trimming has all indicator columns defined; for a constant
series the `rsi` column stays undefined (see the counterexample). -/
theorem trimmed_frame_rows_all_defined (n : ℕ) (c : ℕ → ℚ) (hn : maxPeriod < n)
    (hnz : ∀ i, i < n → c i ≠ 0)
    (hne : ∃ k, 1 ≤ k ∧ k ≤ maxPeriod ∧ c k ≠ c (k - 1)) :
    ∀ i, i < (trimWarmup (add_technical_indicators n c)).n →
      rowDefined (trimWarmup (add_technical_indicators n c)) i := by
  have hmp : maxPeriod = 200 := rfl
  intro i hi
  have hn' : maxPeriod < (add_technical_indicators n c).n := hn
  rw [trimWarmup, if_pos hn'] at hi ⊢
  simp only [add_technical_indicators] at hi ⊢
  have hj : i + maxPeriod < n := by omega
  have hj200 : (200 : ℕ) ≤ i + maxPeriod := by omega
  obtain ⟨k₀, hk1, hk2, hkne⟩ := hne
  refine ⟨emaAt_isSome _ _ _ _ (by omega) hj, emaAt_isSome _ _ _ _ (by omega) hj,
    emaAt_isSome _ _ _ _ (by omega) hj, ?_, priceChangeAt_isSome _ _ _ (by omega) hj,
    priceChangePctAt_isSome _ _ _ (by omega) hj (hnz _ (by omega)),
    volatilityVarAt_isSome _ _ _ _ (by norm_num [VOLATILITY_PERIOD]; omega) hj,
    smaAt_isSome _ _ _ _ (by omega) hj⟩
  exact rsiAt_isSome _ _ _ (by norm_num [RSI_PERIOD]; omega) hj
    (rmaNum_gain_loss_pos c _ k₀ hk1 (by omega) hkne)

/-- C5 witness: the amended theorem applied to the 201-bar strictly
increasing series `close_i = i + 1`. -/
theorem trimmed_frame_rows_all_defined_witness :
    rowDefined (trimWarmup (add_technical_indicators 201 (fun i => (i : ℚ) + 1))) 0 := by
  refine trimmed_frame_rows_all_defined 201 (fun i => (i : ℚ) + 1) (by decide) ?_ ?_ 0 ?_
  · intro i _
    positivity
  · exact ⟨1, le_refl 1, by decide, by norm_num⟩
  · show 0 < 201 - maxPeriod
    decide

/-- C6: every defined RSI value lies in `[0, 100]`; and on an all-gain
series (every bar-to-bar change up to row `i` strictly positive, so the
average loss is zero) the RSI at any in-range row `i ≥ RSI_PERIOD` is
defined and exactly 100 — not an error or NaN. -/
theorem rsi_bounded_and_allgain_is_100 :
    (∀ (n : ℕ) (c : ℕ → ℚ) (i : ℕ) (v : ℚ), rsiAt c n i = some v → 0 ≤ v ∧ v ≤ 100) ∧
    (∀ (n : ℕ) (c : ℕ → ℚ) (i : ℕ), (∀ k, 1 ≤ k → k ≤ i → c (k - 1) < c k) →
      RSI_PERIOD ≤ i → i < n → rsiAt c n i = some 100) := by
  constructor
  · intro n c i v h
    rw [rsiAt] at h
    split at h
    case isFalse => exact absurd h (by simp)
    case isTrue =>
      set G := rmaNum (gain c) i with hG
      set L := rmaNum (loss c) i with hL
      have hGnn : 0 ≤ G := rmaNum_nonneg _ _ (gain_nonneg c)
      have hLnn : 0 ≤ L := rmaNum_nonneg _ _ (loss_nonneg c)
      split at h
      case isTrue => exact absurd h (by simp)
      case isFalse hne =>
        have hpos : 0 < G + L := lt_of_le_of_ne (by positivity) (Ne.symm hne)
        have hv : v = 100 * G / (G + L) := by
          injection h with h
          exact h.symm
        constructor
        · rw [hv]
          positivity
        · rw [hv, div_le_iff₀ hpos]
          nlinarith
  · intro n c i hgain h14 hin
    have h1i : 1 ≤ i := le_trans (by norm_num [RSI_PERIOD]) h14
    have hL : rmaNum (loss c) i = 0 := by
      apply Finset.sum_eq_zero
      intro k hk
      obtain ⟨hk1, hk2⟩ := Finset.mem_Icc.mp hk
      have : c (k - 1) - c k ≤ 0 := sub_nonpos.mpr (le_of_lt (hgain k hk1 hk2))
      rw [loss, max_eq_right this, mul_zero]
    have hGpos : 0 < rmaNum (gain c) i := by
      apply Finset.sum_pos'
      · intro k _
        exact mul_nonneg (pow_nonneg wilderW_pos.le _) (gain_nonneg c k)
      · refine ⟨i, Finset.mem_Icc.mpr ⟨h1i, le_refl i⟩, ?_⟩
        apply mul_pos (pow_pos wilderW_pos _)
        rw [gain, max_eq_left (le_of_lt (sub_pos.mpr (hgain i h1i (le_refl i))))]
        exact sub_pos.mpr (hgain i h1i (le_refl i))
    rw [rsiAt, if_pos ⟨h14, hin⟩]
    rw [hL, add_zero, if_neg hGpos.ne', mul_div_assoc, div_self hGpos.ne', mul_one]

/-- C6 witness: the theorem applied to the strictly increasing series
`close_i = i` of length 16 at row 14: the RSI is exactly 100 and the bounds
hold for it. -/
theorem rsi_bounded_and_allgain_is_100_witness :
    rsiAt (fun i => (i : ℚ)) 16 14 = some 100 ∧ (0 : ℚ) ≤ 100 ∧ (100 : ℚ) ≤ 100 := by
  have hmono : ∀ k, 1 ≤ k → k ≤ 14 → ((k - 1 : ℕ) : ℚ) < ((k : ℕ) : ℚ) := by
    intro k hk1 _
    exact_mod_cast Nat.sub_lt (by omega) one_pos
  have h100 := rsi_bounded_and_allgain_is_100.2 16 (fun i => (i : ℚ)) 14 hmono
    (by norm_num [RSI_PERIOD]) (by norm_num)
  exact ⟨h100, (rsi_bounded_and_allgain_is_100.1 16 (fun i => (i : ℚ)) 14 100 h100).1,
    (rsi_bounded_and_allgain_is_100.1 16 (fun i => (i : ℚ)) 14 100 h100).2⟩

theorem tsList_sortBars_sorted (bs : List RawBar) : (tsList (sortBars bs)).Sorted (· ≤ ·) :=
  List.pairwise_map.mpr (List.sorted_insertionSort (fun a b : RawBar => a.ts ≤ b.ts) bs)

theorem tsList_sortBars_nodup (bs : List RawBar) (h : (tsList bs).Nodup) :
    (tsList (sortBars bs)).Nodup :=
  (((List.perm_insertionSort (fun a b : RawBar => a.ts ≤ b.ts) bs).map RawBar.ts).nodup_iff).mpr h

theorem tsList_trimBars_pairwise (bs : List RawBar) (R : ℕ → ℕ → Prop)
    (h : (tsList bs).Pairwise R) : (tsList (trimBars bs)).Pairwise R := by
  rw [trimBars]
  split
  · rw [tsList, List.map_drop]
    exact h.sublist (List.drop_sublist _ _)
  · exact h

theorem normalized_bars_sorted (bs : List RawBar) : sortedChron (trimBars (sortBars bs)) :=
  (tsList_trimBars_pairwise _ _ (tsList_sortBars_sorted bs)).chain'

theorem normalized_bars_strict (bs : List RawBar) (h : (tsList bs).Nodup) :
    strictChron (trimBars (sortBars bs)) :=
  (tsList_trimBars_pairwise _ _
    ((tsList_sortBars_sorted bs).lt_of_le (tsList_sortBars_nodup bs h))).chain'

/-- C7 counterexample: an accepted payload (status `ok`) with two bars
sharing timestamp 5 normalizes to a series whose timestamps are NOT strictly
increasing — the sort keeps both duplicates. -/
theorem normalizer_keeps_duplicate_timestamps :
    ¬ strictChron (valuesBars (processPayload
      { status := "ok", message := "",
        values := .raw [⟨5, 1, 1, 1, 1⟩, ⟨5, 2, 2, 2, 2⟩] }).values) := by
  intro h
  have hb : valuesBars (processPayload
      { status := "ok", message := "",
        values := .raw [⟨5, 1, 1, 1, 1⟩, ⟨5, 2, 2, 2, 2⟩] }).values =
      [⟨5, 1, 1, 1, 1⟩, ⟨5, 2, 2, 2, 2⟩] := rfl
  rw [hb] at h
  simp [strictChron, tsList] at h

/-- C7 amended: after normalization the timestamps of the resulting series
are non-decreasing on every provider path (twelvedata and Bybit), and
strictly increasing exactly when the accepted payload carries no duplicate
timestamps; the downstream `extract_df` leaves the Bybit order untouched.
Strict increase for arbitrary accepted payloads, as claimed, fails (see the
counterexample). -/
theorem normalizer_timestamps_sorted (p : TDPayload) (bs : List RawBar)
    (hs : p.status = "ok") (hv : p.values = .raw bs) :
    sortedChron (valuesBars (processPayload p).values) ∧
    ((tsList bs).Nodup → strictChron (valuesBars (processPayload p).values)) ∧
    (∀ q : BybitPayload, sortedChron (processBybit q).bars ∧
      ((tsList q.list).Nodup → strictChron (processBybit q).bars)) ∧
    (∀ l : List RawBar, extract_df_order "bybit" l = l) := by
  obtain ⟨st, msg, v⟩ := p
  simp only at hs hv
  subst hs
  subst hv
  have hb : valuesBars (processPayload ⟨"ok", msg, .raw bs⟩).values = trimBars (sortBars bs) := by
    simp [processPayload, valuesBars]
  refine ⟨?_, ?_, ?_, ?_⟩
  · rw [hb]; exact normalized_bars_sorted bs
  · intro hnd; rw [hb]; exact normalized_bars_strict bs hnd
  · intro q
    exact ⟨normalized_bars_sorted q.list, fun hnd => normalized_bars_strict q.list hnd⟩
  · intro l
    simp [extract_df_order]

/-- C7 witness: the amended theorem applied to an accepted two-bar payload
with distinct timestamps delivered out of order. -/
theorem normalizer_timestamps_sorted_witness :
    strictChron (valuesBars (processPayload
      { status := "ok", message := "",
        values := .raw [⟨2, 0, 0, 0, 1⟩, ⟨1, 0, 0, 0, 2⟩] }).values) :=
  (normalizer_timestamps_sorted
    { status := "ok", message := "", values := .raw [⟨2, 0, 0, 0, 1⟩, ⟨1, 0, 0, 0, 2⟩] }
    [⟨2, 0, 0, 0, 1⟩, ⟨1, 0, 0, 0, 2⟩] rfl rfl).2.1 (by decide)

/-- C1 counterexample: a twelvedata payload whose status is `error` does not
make the normalizer fail — `get_symbol_data` returns normally with the
payload passed through unchanged (and no Series normalized). -/
theorem bad_status_payload_passes_through :
    get_symbol_data [{ status := "error", message := "Invalid API key", values := .absent }] =
      .ok [{ status := "error", message := "Invalid API key", values := .absent }] := rfl

/-- C1 amended: a twelvedata payload whose status is not `ok` is returned
unchanged — no exception is raised and no normalized Series is produced; a
Bybit payload with `retMsg != OK` does raise, but not a `ProviderError`
carrying the provider message: when it is the first payload the source
crashes with `IndexError` (`json_data[0]` on the empty accumulator), and
otherwise the exception message is built from the FIRST previously
accumulated (successful) payload's `retMsg`, not from the failing payload. -/
theorem failed_payload_behaviour :
    (∀ p : TDPayload, p.status ≠ "ok" → processPayload p = p) ∧
    (∀ p : BybitPayload, p.retMsg ≠ "OK" → get_bybit_coin_data [p] = .error .indexError) ∧
    (∀ q p : BybitPayload, q.retMsg = "OK" → p.retMsg ≠ "OK" →
      get_bybit_coin_data [q, p] = .error (.exception ("Error: " ++ q.retMsg))) := by
  refine ⟨?_, ?_, ?_⟩
  · intro p h
    obtain ⟨st, msg, v⟩ := p
    cases v with
    | absent => rfl
    | raw bs =>
      simp only at h
      simp [processPayload, h]
    | processed bs ind => rfl
  · intro p h
    simp [get_bybit_coin_data, bybitLoop, h]
  · intro q p hq hp
    simp only [get_bybit_coin_data, bybitLoop, hq, if_true, if_pos, List.nil_append, hp,
      if_neg, List.head?]
    have : (processBybit q).retMsg = q.retMsg := rfl
    simp [bybitLoop, hp, this]
    rw [hq]
    rfl

/-- C1 witness: the amended theorem applied to concrete failing payloads on
both provider paths. -/
theorem failed_payload_behaviour_witness :
    processPayload { status := "error", message := "m", values := .absent } =
      { status := "error", message := "m", values := .absent } ∧
    get_bybit_coin_data [{ retMsg := "Rate limit", symbol := "BTCUSDT", list := [] }] =
      .error .indexError ∧
    get_bybit_coin_data [{ retMsg := "OK", symbol := "BTCUSDT", list := [] },
      { retMsg := "Rate limit", symbol := "ETHUSDT", list := [] }] =
      .error (.exception ("Error: " ++ "OK")) :=
  ⟨failed_payload_behaviour.1 _ (by decide),
    failed_payload_behaviour.2.1 _ (by decide),
    failed_payload_behaviour.2.2 _ _ rfl (by decide)⟩
